import Mathlib

/-!
Shallow embedding of the trading-backoffice CSV loaders
(`net_position_loader.py` and `intraday_trade_loader.py`) and proofs of the
spec claims C1-C10 about them.

Modelling conventions:
* A CSV cell is `Option String`: `none` is a blank cell (pandas `NaN`) or a
  Python `None` written by the canonicalization steps; `some s` is a string
  cell.  `pd.read_csv(path, dtype=str)` reads every cell as text, blanks as
  `NaN`.
* `astype(str)` turns `NaN` into the literal string "nan"; `.str.strip()` and
  `.str.upper()` are modelled on the character list (`pyStrip`, `pyUpper`),
  which agrees with Python on the ASCII data these files carry.
* Python `float` values are idealized as rationals (`ℚ`): the arithmetic in
  `_merge_duplicates` and the `round(x, 3)` checks are exact in the source's
  intent and exact here.  `float(s)` is modelled by `pyFloat?`, a parser for
  finite decimal literals with optional exponent; Python additionally accepts
  the tokens inf/nan, which cannot be represented in `ℚ` and are modelled as
  parse failures (for `Avg_Price` both paths abort the load: `NaN` fails the
  3-decimals check and a non-numeric string raises an uncaught `ValueError`).
* Errors: each loader raises a single Python exception class with a message;
  the model gives one inductive constructor per raise site (messages elided).
  An uncaught `ValueError`/`TypeError` escaping a helper is modelled by the
  corresponding constructor, since either way it aborts the whole load.
* `df.groupby(keys, dropna=False)` collects, for every distinct business-key
  tuple, the group's rows in their original file order (missing values group
  together).  The model emits the groups in first-seen key order, pandas in
  ascending key order; every property proved below (per-key output segments,
  record counts, idempotence) is invariant under that inter-group
  permutation.
-/

/-- A CSV/table cell: `none` models pandas `NaN` / Python `None`. -/
abbrev Cell := Option String

/-- Python truthiness of a cell: `None` and the empty string are falsy,
every other string (including "nan") is truthy. -/
def truthy : Cell → Bool
  | none => false
  | some s => !(s == "")

/-- Python `str.strip()` on the character list (ASCII whitespace). -/
def trimChars (l : List Char) : List Char :=
  ((l.dropWhile Char.isWhitespace).reverse.dropWhile Char.isWhitespace).reverse

/-- Python `str.strip()`. -/
def pyStrip (s : String) : String := String.mk (trimChars s.data)

/-- Python `str.upper()` (ASCII, which covers the data of these loaders). -/
def pyUpper (s : String) : String := String.mk (s.data.map Char.toUpper)

/-- Python `str.lower()` (ASCII). -/
def pyLower (s : String) : String := String.mk (s.data.map Char.toLower)

/-- `df[col].astype(str)` on one cell: `NaN` becomes the string "nan". -/
def astypeStr : Cell → String
  | none => "nan"
  | some s => s

/-- One cell after `_basic_normalization`'s strip pass. -/
def normCell (c : Cell) : Cell := some (pyStrip (astypeStr c))

/-- One cell after the strip pass and the `.str.upper()` pass. -/
def normUpperCell (c : Cell) : Cell := some (pyUpper (pyStrip (astypeStr c)))

/-- Cell membership in a list of string constants. -/
def cellIn (c : Cell) (l : List String) : Bool :=
  match c with
  | none => false
  | some s => l.contains s

/-- Digit value of an ASCII digit character. -/
def digitVal (c : Char) : Nat := c.toNat - 48

/-- Value of a digit string, most significant first. -/
def natOfDigits (l : List Char) : Nat := l.foldl (fun a c => a * 10 + digitVal c) 0

/-- Python `int(s)` on a stripped string: optional sign then digits. -/
def pyIntCore (l : List Char) : Option Int :=
  if l.isEmpty then none
  else if l.all Char.isDigit then some ((natOfDigits l : Nat) : Int) else none

/-- Python `int(s)`: parse an integer literal, `none` when `int` raises. -/
def pyInt? (s : String) : Option Int :=
  match s.data with
  | '+' :: t => pyIntCore t
  | '-' :: t => (pyIntCore t).map (fun n => -n)
  | l => pyIntCore l

/-- Ten to an integer power, as a rational. -/
def pow10 (i : Int) : ℚ :=
  if 0 ≤ i then ((10 : ℚ) ^ i.toNat) else 1 / ((10 : ℚ) ^ (-i).toNat)

/-- Unsigned part of a Python float literal: digits, optional point and
fraction, optional exponent.  (Python's `float` also accepts inf/nan tokens,
which have no `ℚ` value and are treated as parse failures.) -/
def pyFloatMag (l : List Char) : Option ℚ :=
  let ip := l.takeWhile Char.isDigit
  let r1 := l.dropWhile Char.isDigit
  let fp := match r1 with
    | '.' :: t => t.takeWhile Char.isDigit
    | _ => []
  let r2 := match r1 with
    | '.' :: t => t.dropWhile Char.isDigit
    | _ => r1
  if ip.isEmpty && fp.isEmpty then none
  else
    let base : ℚ := (natOfDigits ip : ℚ) + (natOfDigits fp : ℚ) / ((10 : ℚ) ^ fp.length)
    match r2 with
    | [] => some base
    | e :: t =>
      if e == 'e' || e == 'E' then
        let sd : Int × List Char := match t with
          | '+' :: t2 => (1, t2)
          | '-' :: t2 => (-1, t2)
          | _ => (1, t)
        if sd.2.isEmpty || !sd.2.all Char.isDigit then none
        else some (base * pow10 (sd.1 * (natOfDigits sd.2 : Nat)))
      else none

/-- Python `float(s)` on a stripped string, `none` when `float` raises. -/
def pyFloat? (s : String) : Option ℚ :=
  match s.data with
  | '+' :: t => pyFloatMag t
  | '-' :: t => (pyFloatMag t).map (fun q => -q)
  | l => pyFloatMag l

/-- Python `int(float)` truncation toward zero. -/
def pyTrunc (q : ℚ) : Int := if 0 ≤ q then ⌊q⌋ else ⌈q⌉

/-- Python `round` to an integer: round-half-to-even. -/
def pyRoundHalfEven (q : ℚ) : Int :=
  let f : Int := ⌊q⌋
  if q - f < 1/2 then f
  else if 1/2 < q - f then f + 1
  else if f % 2 = 0 then f else f + 1

/-- Python `round(x, 3)` idealized over `ℚ`. -/
def round3 (q : ℚ) : ℚ := ((pyRoundHalfEven (q * 1000) : Int) : ℚ) / 1000

/-- Month number for an upper-case three-letter abbreviation (`%b` after
`.upper()`; CPython's strptime month match is case-insensitive). -/
def monthNum (s : String) : Option Nat :=
  if s == "JAN" then some 1 else if s == "FEB" then some 2
  else if s == "MAR" then some 3 else if s == "APR" then some 4
  else if s == "MAY" then some 5 else if s == "JUN" then some 6
  else if s == "JUL" then some 7 else if s == "AUG" then some 8
  else if s == "SEP" then some 9 else if s == "OCT" then some 10
  else if s == "NOV" then some 11 else if s == "DEC" then some 12
  else none

/-- Gregorian leap year, as in `datetime`. -/
def isLeapYear (y : Nat) : Bool := y % 4 == 0 && (y % 100 != 0 || y % 400 == 0)

/-- Days in a month, as validated by `datetime`. -/
def daysInMonth (m y : Nat) : Nat :=
  if m == 2 then (if isLeapYear y then 29 else 28)
  else if m == 4 || m == 6 || m == 9 || m == 11 then 30
  else 31

/-- `DATE_REGEX = ^\d{2}-[A-Za-z]{3}-\d{4}$`: two digits, hyphen, three
letters, hyphen, four digits. -/
def dateShapeOk (s : String) : Bool :=
  match s.data with
  | [d1, d2, h1, a1, a2, a3, h2, y1, y2, y3, y4] =>
      d1.isDigit && d2.isDigit && h1 == '-' && a1.isAlpha && a2.isAlpha &&
      a3.isAlpha && h2 == '-' && y1.isDigit && y2.isDigit && y3.isDigit && y4.isDigit
  | _ => false

/-- `datetime.strptime(value, "%d-%b-%Y")` succeeding on an 11-character
dd-MMM-yyyy string: known month abbreviation, day within the month
(leap years respected), day and year at least 1. -/
def strptimeDMY (s : String) : Bool :=
  match s.data with
  | [d1, d2, _, a1, a2, a3, _, y1, y2, y3, y4] =>
      let day := digitVal d1 * 10 + digitVal d2
      let year := ((digitVal y1 * 10 + digitVal y2) * 10 + digitVal y3) * 10 + digitVal y4
      match monthNum (String.mk [a1, a2, a3]) with
      | some m => decide (1 ≤ day) && decide (day ≤ daysInMonth m year) && decide (1 ≤ year)
      | none => false
  | _ => false

/-- First-seen-order deduplication with an accumulator of already-seen
values; `firstSeen [] l` is pandas `Series.unique()` on `l`. -/
def firstSeen {α : Type} [DecidableEq α] (seen : List α) : List α → List α
  | [] => []
  | c :: t => if c ∈ seen then firstSeen seen t else c :: firstSeen (c :: seen) t

/-- Run a per-row check over the rows in order, stopping at the first
error (the loaders' `for idx, row in df.iterrows()` loops). -/
def seqRows {ε α : Type} (f : α → Except ε Unit) : List α → Except ε Unit
  | [] => Except.ok ()
  | r :: t => do
    f r
    seqRows f t

/-- Error raised by `NetPositionSnapshotLoader` (`NetPositionLoadError`), one
constructor per raise site; `typeError` and `valueError` stand for the
uncaught Python exceptions a helper can raise.  Message payloads elided. -/
inductive NetErr where
  | dateUniqueness
  | dateFormat
  | dateValue
  | invalidExchange
  | eqHasExpiry
  | missingExpiry
  | invalidIndexInstrument
  | unknownInstrument
  | netQtyNotInteger
  | priceInvalid
  | strikeInvalid
  | typeError
  | valueError
  | eqHasContract
  | futMissingExpiry
  | optIncomplete
  | storeWrite
deriving DecidableEq

/-- One raw row of a net-position CSV (required columns are present by
construction, modelling `_validate_required_columns` passing). -/
structure NetRawRow where
  broker_id : Cell
  sheet : Cell
  strategy : Cell
  exchange : Cell
  instrument : Cell
  symbol : Cell
  expiry : Cell
  strike : Cell
  opt_type : Cell
  net_qty : Cell
  avg_price : Cell
  carry_date : Cell
deriving DecidableEq

/-- `_basic_normalization`: every cell `astype(str).str.strip()`, and the
seven identifier columns additionally `.str.upper()`. -/
def normalizeNetRow (r : NetRawRow) : NetRawRow where
  broker_id := normUpperCell r.broker_id
  sheet := normUpperCell r.sheet
  strategy := normUpperCell r.strategy
  exchange := normUpperCell r.exchange
  instrument := normUpperCell r.instrument
  symbol := normUpperCell r.symbol
  expiry := normCell r.expiry
  strike := normCell r.strike
  opt_type := normUpperCell r.opt_type
  net_qty := normCell r.net_qty
  avg_price := normCell r.avg_price
  carry_date := normCell r.carry_date

/-- `_parse_date` of the net loader: regex check, then
`datetime.strptime(value.upper(), "%d-%b-%Y")`, whose failure is an uncaught
`ValueError` (`dateValue`).  A `None` value would make `re.match` raise
`TypeError`. -/
def parseDateNet (c : Cell) : Except NetErr Unit :=
  match c with
  | none => Except.error NetErr.typeError
  | some v =>
    if !dateShapeOk v then Except.error NetErr.dateFormat
    else if !strptimeDMY (pyUpper v) then Except.error NetErr.dateValue
    else Except.ok ()

/-- `_validate_carry_date`: `df["Carry_Date"].unique()` must have exactly one
value, which must parse as a date; that value is returned. -/
def validateCarryDate (rows : List NetRawRow) : Except NetErr Cell :=
  match firstSeen [] (rows.map (fun r => r.carry_date)) with
  | [d] => do
    parseDateNet d
    Except.ok d
  | _ => Except.error NetErr.dateUniqueness

/-- The allowed exchange set shared by both loaders. -/
def allowedExchanges : List String := ["NSE", "BSE"]

/-- `_validate_exchange` of the net loader: every `Exchange` value must be in
the allowed set. -/
def validateExchangeNet (rows : List NetRawRow) : Except NetErr Unit :=
  if rows.all (fun r => cellIn r.exchange allowedExchanges) then Except.ok ()
  else Except.error NetErr.invalidExchange

/-- `EQ_ALIASES` shared by both loaders. -/
def eqAliases : List String := ["EQ", "EQUITY", "CASH"]

/-- `_validate_expiry_format` on one row: equity aliases must have no expiry
(the string "nan", i.e. a blank cell, counts as no expiry), every other
instrument must have a date-shaped, calendar-valid expiry. -/
def validateExpiryRow (r : NetRawRow) : Except NetErr Unit :=
  if cellIn r.instrument eqAliases then
    if truthy r.expiry && !(r.expiry == some "nan") then Except.error NetErr.eqHasExpiry
    else Except.ok ()
  else
    if !truthy r.expiry || r.expiry == some "nan" then Except.error NetErr.missingExpiry
    else parseDateNet r.expiry

/-- `_validate_expiry_format` over the whole frame. -/
def validateExpiryFormat (rows : List NetRawRow) : Except NetErr Unit :=
  seqRows validateExpiryRow rows

/-- `BSE_SYMBOL_MAP` alias sets. -/
def sensexAliases : List String := ["BSX", "BSE", "BSXOPT", "SENSEX"]

/-- `BSE_SYMBOL_MAP` alias sets. -/
def bankexAliases : List String := ["BKX", "BKXOPT", "BANKEX"]

/-- Option-family aliases rewritten to OPTIDX on matched BSE index rows. -/
def bseOptAliases : List String := ["IO", "OPT", "OPTIDX"]

/-- Future-family aliases rewritten to FUTIDX on matched BSE index rows. -/
def bseFutAliases : List String := ["FUT", "FUTIDX"]

/-- The five instrument aliases a matched BSE index row may carry. -/
def bseIndexInstruments : List String := ["IO", "OPT", "OPTIDX", "FUT", "FUTIDX"]

/-- The mask of `_canonicalize_bse_symbols`: exchange BSE and symbol in the
alias set of the index being canonicalized. -/
def bseMask (aliases : List String) (r : NetRawRow) : Bool :=
  r.exchange == some "BSE" && cellIn r.symbol aliases

/-- The rewrite `_canonicalize_bse_symbols` applies to one masked row:
symbol to the canonical index name, instrument OPTIDX/FUTIDX by family. -/
def bseRewriteNet (canonical : String) (aliases : List String) (r : NetRawRow) : NetRawRow :=
  if bseMask aliases r then
    { r with
      symbol := some canonical
      instrument :=
        if cellIn r.instrument bseOptAliases then some "OPTIDX"
        else if cellIn r.instrument bseFutAliases then some "FUTIDX"
        else r.instrument }
  else r

/-- One alias-group pass of the net loader's `_canonicalize_bse_symbols`:
rewrite the masked rows, then fail if any masked row's instrument is not one
of the five index aliases (equivalently, did not land on OPTIDX/FUTIDX). -/
def bseGroupNet (canonical : String) (aliases : List String) (rows : List NetRawRow) :
    Except NetErr (List NetRawRow) :=
  let pairs := rows.map (fun r => (bseMask aliases r, bseRewriteNet canonical aliases r))
  if pairs.any (fun p => p.1 && !(cellIn p.2.instrument bseIndexInstruments)) then
    Except.error NetErr.invalidIndexInstrument
  else Except.ok (pairs.map (fun p => p.2))

/-- `_canonicalize_bse_symbols` of the net loader: the SENSEX alias group,
then the BANKEX alias group (`BSE_SYMBOL_MAP` insertion order). -/
def canonicalizeBseNet (rows : List NetRawRow) : Except NetErr (List NetRawRow) := do
  let r1 ← bseGroupNet "SENSEX" sensexAliases rows
  bseGroupNet "BANKEX" bankexAliases r1

/-- `ALLOWED_INSTRUMENTS` shared by both loaders. -/
def allowedInstruments : List String :=
  ["EQ", "FUT", "FUTIDX", "FUTSTK", "OPT", "OPTIDX", "OPTSTK"]

/-- The equity rewrite of the net loader's `_canonicalize_equity_instruments`:
instrument EQ, sheet PORTFOLIO, expiry/strike/opt_type cleared to `None`. -/
def eqRewriteNet (r : NetRawRow) : NetRawRow :=
  if cellIn r.instrument eqAliases then
    { r with
      instrument := some "EQ"
      sheet := some "PORTFOLIO"
      expiry := none
      strike := none
      opt_type := none }
  else r

/-- `_canonicalize_equity_instruments` of the net loader: rewrite equity
aliases, then fail if any instrument is outside the allowed set. -/
def canonicalizeEquityNet (rows : List NetRawRow) : Except NetErr (List NetRawRow) :=
  let rows2 := rows.map eqRewriteNet
  if rows2.any (fun r => !cellIn r.instrument allowedInstruments) then
    Except.error NetErr.unknownInstrument
  else Except.ok rows2

/-- A net-position row after `_validate_numeric_fields`: the frame still holds
strings, but that stage guarantees `Net_Qty` parses via `int` and `Avg_Price`
via `float`, so the model carries the parsed values the merge step will read
through `astype(int)` / `astype(float)`.  `strike` stays a string cell: the
merge groups on its raw text. -/
structure NetRow where
  broker_id : Cell
  sheet : Cell
  strategy : Cell
  exchange : Cell
  instrument : Cell
  symbol : Cell
  expiry : Cell
  strike : Cell
  opt_type : Cell
  net_qty : Int
  avg_price : ℚ
  carry_date : Cell
deriving DecidableEq

/-- `int` applied to a cell (`int(None)` raises `TypeError`). -/
def pyIntCell (c : Cell) : Option Int :=
  match c with
  | none => none
  | some s => pyInt? s

/-- `float` applied to a cell (`float(None)` raises `TypeError`). -/
def pyFloatCell (c : Cell) : Option ℚ :=
  match c with
  | none => none
  | some s => pyFloat? s

/-- `_validate_numeric_fields` on one row: `Net_Qty` must be an integer,
`Avg_Price` a non-negative float equal to its 3-decimal rounding, and a
present `Strike` (non-empty and not the "nan" string) a float equal to its
3-decimal rounding.  Returns the row with the two parsed numeric fields. -/
def validateNumericRow (r : NetRawRow) : Except NetErr NetRow := do
  let q ← match pyIntCell r.net_qty with
    | some q => Except.ok q
    | none => Except.error NetErr.netQtyNotInteger
  let p ← match pyFloatCell r.avg_price with
    | some p => Except.ok p
    | none => Except.error NetErr.priceInvalid
  if p < 0 ∨ round3 p ≠ p then Except.error NetErr.priceInvalid
  else do
    if truthy r.strike && !(r.strike == some "nan") then
      match pyFloatCell r.strike with
      | some v =>
        if round3 v ≠ v then Except.error NetErr.strikeInvalid else Except.ok ()
      | none => Except.error NetErr.valueError
    else Except.ok ()
    Except.ok
      { broker_id := r.broker_id
        sheet := r.sheet
        strategy := r.strategy
        exchange := r.exchange
        instrument := r.instrument
        symbol := r.symbol
        expiry := r.expiry
        strike := r.strike
        opt_type := r.opt_type
        net_qty := q
        avg_price := p
        carry_date := r.carry_date }

/-- `_validate_numeric_fields` over the whole frame, keeping the rows with
their parsed numeric fields. -/
def validateNumericFields (rows : List NetRawRow) : Except NetErr (List NetRow) :=
  rows.mapM validateNumericRow

/-- The business key of `_merge_duplicates`: the nine `groupby` columns. -/
structure BKey where
  broker_id : Cell
  sheet : Cell
  strategy : Cell
  exchange : Cell
  instrument : Cell
  symbol : Cell
  expiry : Cell
  strike : Cell
  opt_type : Cell
deriving DecidableEq

/-- Business key of a row. -/
def businessKey (r : NetRow) : BKey :=
  ⟨r.broker_id, r.sheet, r.strategy, r.exchange, r.instrument, r.symbol,
    r.expiry, r.strike, r.opt_type⟩

/-- The group of a business key: the rows carrying that key, in file order
(what `df.groupby(keys, dropna=False)` collects for the key). -/
def grp (rows : List NetRow) (k : BKey) : List NetRow :=
  rows.filter (fun r => decide (businessKey r = k))

/-- The distinct business keys of the frame, in first-seen order. -/
def groupKeys (rows : List NetRow) : List BKey :=
  firstSeen [] (rows.map businessKey)

/-- `g["Net_Qty"].astype(int).sum()`. -/
def groupQty (g : List NetRow) : Int := (g.map (fun r => r.net_qty)).sum

/-- `(g["Net_Qty"].astype(int) * g["Avg_Price"].astype(float)).sum() / qty`. -/
def groupVwap (g : List NetRow) : ℚ :=
  ((g.map (fun r => (r.net_qty : ℚ) * r.avg_price)).sum) / ((groupQty g : Int) : ℚ)

/-- `_merge_duplicates` on one business-key group: singletons pass through;
a multi-row group whose quantities sum to zero is kept unmerged; otherwise
the group collapses to its first row with the summed quantity and the
3-decimal-rounded volume-weighted average price. -/
def mergeGroup (g : List NetRow) : List NetRow :=
  if g.length = 1 then g
  else if groupQty g = 0 then g
  else
    match g with
    | [] => []
    | r :: _ => [{ r with net_qty := groupQty g, avg_price := round3 (groupVwap g) }]

/-- `_merge_duplicates`: resolve every business-key group.  (pandas emits the
groups in ascending key order, this model in first-seen key order; the
properties proved below are order-insensitive across groups.) -/
def mergeDuplicates (rows : List NetRow) : List NetRow :=
  (groupKeys rows).flatMap (fun k => mergeGroup (grp rows k))

/-- The FUT instrument family. -/
def futFamily : List String := ["FUT", "FUTIDX", "FUTSTK"]

/-- The OPT instrument family. -/
def optFamily : List String := ["OPT", "OPTIDX", "OPTSTK"]

/-- `_final_shape_validation` on one row.  The presence tests are Python
truthiness on the raw cells: `None` and "" are absent, any other string —
including the "nan" left by a blank cell — is present. -/
def finalShapeRow (r : NetRow) : Except NetErr Unit := do
  if r.instrument == some "EQ" then
    if truthy r.expiry || truthy r.strike || truthy r.opt_type then
      Except.error NetErr.eqHasContract
    else Except.ok ()
  else Except.ok ()
  if cellIn r.instrument futFamily then
    if !truthy r.expiry then Except.error NetErr.futMissingExpiry else Except.ok ()
  else Except.ok ()
  if cellIn r.instrument optFamily then
    if !(truthy r.expiry && truthy r.strike && truthy r.opt_type) then
      Except.error NetErr.optIncomplete
    else Except.ok ()
  else Except.ok ()

/-- `_final_shape_validation` over the merged frame. -/
def finalShapeValidation (rows : List NetRow) : Except NetErr Unit :=
  seqRows finalShapeRow rows

/-- A record sent to the store by the net loader, fields renamed per
`CSV_TO_DB_COLS`. -/
structure NetRecord where
  broker_id : Cell
  sheet : Cell
  strategy : Cell
  exchange : Cell
  instrument_type : Cell
  symbol : Cell
  expiry : Cell
  strike : Cell
  opt_type : Cell
  net_qty : Int
  avg_price : ℚ
  carry_date : Cell
deriving DecidableEq

/-- `_to_db_records` of the net loader: rename columns, one record per row. -/
def toNetRecord (r : NetRow) : NetRecord :=
  ⟨r.broker_id, r.sheet, r.strategy, r.exchange, r.instrument, r.symbol,
    r.expiry, r.strike, r.opt_type, r.net_qty, r.avg_price, r.carry_date⟩

/-- `_to_db_records` of the net loader over the frame. -/
def toDbRecordsNet (rows : List NetRow) : List NetRecord := rows.map toNetRecord

/-- `NetPositionSnapshotLoader.load` up to (excluding) the store upsert: the
validation/normalization/merge pipeline in source order, producing the
records that would be upserted. -/
def loadNet (rows : List NetRawRow) : Except NetErr (List NetRecord) := do
  let rows1 := rows.map normalizeNetRow
  let _ ← validateCarryDate rows1
  validateExchangeNet rows1
  validateExpiryFormat rows1
  let rows2 ← canonicalizeBseNet rows1
  let rows3 ← canonicalizeEquityNet rows2
  let rows4 ← validateNumericFields rows3
  let rows5 := mergeDuplicates rows4
  finalShapeValidation rows5
  Except.ok (toDbRecordsNet rows5)

/-- The store's response to an insert/upsert: `resp.error` is the reported
error signal, `none` on success. -/
structure StoreResp where
  error : Option String
deriving DecidableEq

/-- `load` of the net loader against a store, together with the list of
record batches actually handed to the store.  `_upsert_to_db` raises
`NetPositionLoadError(resp.error)` whenever the response carries an error. -/
def runNetTrace (rows : List NetRawRow) (store : List NetRecord → StoreResp) :
    Except NetErr Unit × List (List NetRecord) :=
  match loadNet rows with
  | Except.error e => (Except.error e, [])
  | Except.ok recs =>
    match (store recs).error with
    | some _ => (Except.error NetErr.storeWrite, [recs])
    | none => (Except.ok (), [recs])

/-- Error raised by `IntradayTradeLoader` (`IntradayTradeLoadError`), one
constructor per raise site, plus `valueError` for an uncaught `ValueError`
and `typeError` for an uncaught `TypeError`. -/
inductive IntraErr where
  | dateUniqueness
  | dateFormat
  | dateValue
  | invalidExchange
  | futMissingExpiry
  | optIncomplete
  | emptyExecution
  | quantityMismatch
  | negativeBuyRate
  | negativeSellRate
  | valueError
  | typeError
deriving DecidableEq

/-- One raw row of an intraday CSV (required columns present by
construction). -/
structure IntraRawRow where
  broker_id : Cell
  sheet : Cell
  strategy : Cell
  exchange : Cell
  instrument : Cell
  symbol : Cell
  expiry : Cell
  strike : Cell
  opt_type : Cell
  buy_qty : Cell
  buy_rate : Cell
  sell_qty : Cell
  sell_rate : Cell
  net_qty : Cell
  trade_date : Cell
deriving DecidableEq

/-- `_basic_normalization` of the intraday loader: strip every cell, upper
the same seven identifier columns. -/
def normalizeIntraRow (r : IntraRawRow) : IntraRawRow where
  broker_id := normUpperCell r.broker_id
  sheet := normUpperCell r.sheet
  strategy := normUpperCell r.strategy
  exchange := normUpperCell r.exchange
  instrument := normUpperCell r.instrument
  symbol := normUpperCell r.symbol
  expiry := normCell r.expiry
  strike := normCell r.strike
  opt_type := normUpperCell r.opt_type
  buy_qty := normCell r.buy_qty
  buy_rate := normCell r.buy_rate
  sell_qty := normCell r.sell_qty
  sell_rate := normCell r.sell_rate
  net_qty := normCell r.net_qty
  trade_date := normCell r.trade_date

/-- `_parse_date` of the intraday loader: same regex then strptime check. -/
def parseDateIntra (c : Cell) : Except IntraErr Unit :=
  match c with
  | none => Except.error IntraErr.typeError
  | some v =>
    if !dateShapeOk v then Except.error IntraErr.dateFormat
    else if !strptimeDMY (pyUpper v) then Except.error IntraErr.dateValue
    else Except.ok ()

/-- `_validate_trade_date`: `df["Trade_Date"].unique()` must have exactly one
value, which must parse as a date. -/
def validateTradeDate (rows : List IntraRawRow) : Except IntraErr Cell :=
  match firstSeen [] (rows.map (fun r => r.trade_date)) with
  | [d] => do
    parseDateIntra d
    Except.ok d
  | _ => Except.error IntraErr.dateUniqueness

/-- `_validate_exchange` of the intraday loader. -/
def validateExchangeIntra (rows : List IntraRawRow) : Except IntraErr Unit :=
  if rows.all (fun r => cellIn r.exchange allowedExchanges) then Except.ok ()
  else Except.error IntraErr.invalidExchange

/-- The BSE mask of the intraday loader's `_canonicalize_bse_symbols`. -/
def bseMaskI (aliases : List String) (r : IntraRawRow) : Bool :=
  r.exchange == some "BSE" && cellIn r.symbol aliases

/-- One masked-row rewrite of the intraday loader's
`_canonicalize_bse_symbols` (no bad-instrument check in this loader). -/
def bseRewriteIntra (canonical : String) (aliases : List String) (r : IntraRawRow) : IntraRawRow :=
  if bseMaskI aliases r then
    { r with
      symbol := some canonical
      instrument :=
        if cellIn r.instrument bseOptAliases then some "OPTIDX"
        else if cellIn r.instrument bseFutAliases then some "FUTIDX"
        else r.instrument }
  else r

/-- `_canonicalize_bse_symbols` of the intraday loader: SENSEX pass then
BANKEX pass. -/
def canonicalizeBseIntra (rows : List IntraRawRow) : List IntraRawRow :=
  (rows.map (bseRewriteIntra "SENSEX" sensexAliases)).map
    (bseRewriteIntra "BANKEX" bankexAliases)

/-- `_canonicalize_equity_instruments` of the intraday loader: equity aliases
become EQ with expiry/strike/opt_type cleared (no sheet rewrite, no allowed
set check in this loader). -/
def eqRewriteIntra (r : IntraRawRow) : IntraRawRow :=
  if cellIn r.instrument eqAliases then
    { r with
      instrument := some "EQ"
      expiry := none
      strike := none
      opt_type := none }
  else r

/-- `str.startswith` on a cell (the instrument cell is never `None` when this
runs). -/
def cellStartsWith (c : Cell) (p : List Char) : Bool :=
  match c with
  | none => false
  | some s => List.isPrefixOf p s.data

/-- `_validate_expiry_strike_opt_type` on one row: EQ rows skip; instruments
starting with FUT need a truthy expiry; instruments starting with OPT need
truthy expiry, strike and opt_type (the "nan" string of a blank cell is
truthy). -/
def validateContractRow (r : IntraRawRow) : Except IntraErr Unit :=
  if r.instrument == some "EQ" then Except.ok ()
  else if cellStartsWith r.instrument ['F', 'U', 'T'] then
    if !truthy r.expiry then Except.error IntraErr.futMissingExpiry else Except.ok ()
  else if cellStartsWith r.instrument ['O', 'P', 'T'] then
    if !(truthy r.expiry && truthy r.strike && truthy r.opt_type) then
      Except.error IntraErr.optIncomplete
    else Except.ok ()
  else Except.ok ()

/-- `_validate_expiry_strike_opt_type` over the frame. -/
def validateContracts (rows : List IntraRawRow) : Except IntraErr Unit :=
  seqRows validateContractRow rows

/-- `NULL_STRINGS` of the intraday loader. -/
def nullStrings : List String := ["", "nan", "none", "null"]

/-- A cell treated as null by `to_int`/`to_float`: pandas-missing (`None`) or
a case-insensitive null token. -/
def isNullCell : Cell → Bool
  | none => true
  | some s => nullStrings.contains (pyLower s)

/-- The intraday loader's `to_int`: null cells default to 0, anything else
parses via `int(float(v))` (float-then-truncate); a non-numeric string is an
uncaught `ValueError`. -/
def toIntI (c : Cell) : Except IntraErr Int :=
  if isNullCell c then Except.ok 0
  else
    match c with
    | none => Except.ok 0
    | some s =>
      match pyFloat? s with
      | some q => Except.ok (pyTrunc q)
      | none => Except.error IntraErr.valueError

/-- The intraday loader's `to_float`: null cells become `None`, anything else
parses via `float(v)`. -/
def toFloatI (c : Cell) : Except IntraErr (Option ℚ) :=
  if isNullCell c then Except.ok none
  else
    match c with
    | none => Except.ok none
    | some s =>
      match pyFloat? s with
      | some q => Except.ok (some q)
      | none => Except.error IntraErr.valueError

/-- `_validate_quantities_and_rates` on one row, in source order: parse the
three quantities, reject when both buy and sell are zero, reject when
`net ≠ buy - sell`, then parse the two rates and reject negative ones. -/
def validateQuantitiesRow (r : IntraRawRow) : Except IntraErr Unit := do
  let buy ← toIntI r.buy_qty
  let sell ← toIntI r.sell_qty
  let net ← toIntI r.net_qty
  if buy = 0 ∧ sell = 0 then Except.error IntraErr.emptyExecution
  else if net ≠ buy - sell then Except.error IntraErr.quantityMismatch
  else do
    let br ← toFloatI r.buy_rate
    let sr ← toFloatI r.sell_rate
    match br with
    | some b => if b < 0 then Except.error IntraErr.negativeBuyRate else Except.ok ()
    | none => Except.ok ()
    match sr with
    | some v => if v < 0 then Except.error IntraErr.negativeSellRate else Except.ok ()
    | none => Except.ok ()

/-- `_validate_quantities_and_rates` over the frame. -/
def validateQuantities (rows : List IntraRawRow) : Except IntraErr Unit :=
  seqRows validateQuantitiesRow rows

/-- A record sent to the store by the intraday loader (`CSV_TO_DB_COLS`
renaming; the `pd.isna` cleaning maps `None` cells to an explicit null,
which `Cell` already represents). -/
structure IntraRecord where
  broker_id : Cell
  sheet : Cell
  strategy : Cell
  exchange : Cell
  instrument_type : Cell
  symbol : Cell
  expiry : Cell
  strike : Cell
  opt_type : Cell
  buy_qty : Cell
  buy_rate : Cell
  sell_qty : Cell
  sell_rate : Cell
  net_qty : Cell
  trade_date : Cell
deriving DecidableEq

/-- `_to_db_records` of the intraday loader: one record per row. -/
def toIntraRecord (r : IntraRawRow) : IntraRecord :=
  ⟨r.broker_id, r.sheet, r.strategy, r.exchange, r.instrument, r.symbol,
    r.expiry, r.strike, r.opt_type, r.buy_qty, r.buy_rate, r.sell_qty,
    r.sell_rate, r.net_qty, r.trade_date⟩

/-- `_to_db_records` of the intraday loader over the frame. -/
def toDbRecordsIntra (rows : List IntraRawRow) : List IntraRecord :=
  rows.map toIntraRecord

/-- `IntradayTradeLoader.load` up to (excluding) the store insert, in source
order, producing the records that would be inserted. -/
def loadIntra (rows : List IntraRawRow) : Except IntraErr (List IntraRecord) := do
  let rows1 := rows.map normalizeIntraRow
  let _ ← validateTradeDate rows1
  validateExchangeIntra rows1
  let rows2 := canonicalizeBseIntra rows1
  let rows3 := rows2.map eqRewriteIntra
  validateContracts rows3
  validateQuantities rows3
  Except.ok (toDbRecordsIntra rows3)

/-- `load` of the intraday loader against a store, with the trace of record
batches handed to the store.  `_insert_to_db` discards the response of
`execute()`: a reported error signal is never inspected. -/
def runIntraTrace (rows : List IntraRawRow) (store : List IntraRecord → StoreResp) :
    Except IntraErr Unit × List (List IntraRecord) :=
  match loadIntra rows with
  | Except.error e => (Except.error e, [])
  | Except.ok recs =>
    let _ := store recs
    (Except.ok (), [recs])

deriving instance DecidableEq for Except

/-! General lemmas about `firstSeen` (pandas first-seen grouping order) and
the per-key structure of `_merge_duplicates`. -/

theorem mem_firstSeen {α : Type} [DecidableEq α] (x : α) (l seen : List α) :
    x ∈ firstSeen seen l ↔ (x ∈ l ∧ x ∉ seen) := by
  induction l generalizing seen with
  | nil => simp [firstSeen]
  | cons c t ih =>
    by_cases hc : c ∈ seen
    · rw [firstSeen, if_pos hc, ih seen]
      constructor
      · rintro ⟨h1, h2⟩
        exact ⟨List.mem_cons_of_mem _ h1, h2⟩
      · rintro ⟨h1, h2⟩
        rcases List.mem_cons.mp h1 with h | h
        · exact absurd (h ▸ hc) h2
        · exact ⟨h, h2⟩
    · rw [firstSeen, if_neg hc]
      constructor
      · intro h
        rcases List.mem_cons.mp h with h | h
        · exact ⟨h ▸ List.mem_cons_self c t, h ▸ hc⟩
        · obtain ⟨h1, h2⟩ := (ih (c :: seen)).mp h
          exact ⟨List.mem_cons_of_mem _ h1, fun hx => h2 (List.mem_cons_of_mem _ hx)⟩
      · rintro ⟨h1, h2⟩
        rcases List.mem_cons.mp h1 with h | h
        · exact h ▸ List.mem_cons_self x _
        · by_cases hxc : x = c
          · exact hxc ▸ List.mem_cons_self x _
          · refine List.mem_cons_of_mem _ ((ih (c :: seen)).mpr ⟨h, fun hx => ?_⟩)
            rcases List.mem_cons.mp hx with h3 | h3
            · exact hxc h3
            · exact h2 h3

theorem nodup_firstSeen {α : Type} [DecidableEq α] (l seen : List α) :
    (firstSeen seen l).Nodup := by
  induction l generalizing seen with
  | nil => simp [firstSeen]
  | cons c t ih =>
    by_cases hc : c ∈ seen
    · rw [firstSeen, if_pos hc]
      exact ih seen
    · rw [firstSeen, if_neg hc]
      refine List.nodup_cons.mpr ⟨fun h => ?_, ih (c :: seen)⟩
      exact ((mem_firstSeen c t (c :: seen)).mp h).2 (List.mem_cons_self c seen)

theorem firstSeen_append_of_seen {α : Type} [DecidableEq α] (seen l2 : List α) :
    ∀ l1 : List α, (∀ x ∈ l1, x ∈ seen) → firstSeen seen (l1 ++ l2) = firstSeen seen l2 := by
  intro l1
  induction l1 with
  | nil => intro _; rfl
  | cons c t ih =>
    intro h
    rw [List.cons_append, firstSeen, if_pos (h c (List.mem_cons_self c t))]
    exact ih (fun x hx => h x (List.mem_cons_of_mem _ hx))

theorem firstSeen_runs {α β : Type} [DecidableEq α] (key : β → α) :
    ∀ (ks : List α) (seen : List α) (seg : α → List β),
      ks.Nodup → (∀ k ∈ ks, k ∉ seen) →
      (∀ k ∈ ks, seg k ≠ [] ∧ ∀ x ∈ seg k, key x = k) →
      firstSeen seen ((ks.flatMap seg).map key) = ks := by
  intro ks
  induction ks with
  | nil => intro seen seg _ _ _; rfl
  | cons k t ih =>
    intro seen seg hnd hseen hseg
    obtain ⟨hne, hpure⟩ := hseg k (List.mem_cons_self k t)
    obtain ⟨x, xs, hx⟩ : ∃ x xs, seg k = x :: xs := by
      cases h : seg k with
      | nil => exact absurd h hne
      | cons a b => exact ⟨a, b, rfl⟩
    rw [List.flatMap_cons, List.map_append, hx, List.map_cons,
      hpure x (hx ▸ List.mem_cons_self x xs), List.cons_append, firstSeen,
      if_neg (hseen k (List.mem_cons_self k t))]
    congr 1
    rw [firstSeen_append_of_seen (k :: seen) _ (xs.map key) (fun y hy => ?_)]
    · refine ih (k :: seen) seg (List.nodup_cons.mp hnd).2 (fun k2 hk2 => ?_) ?_
      · intro hk3
        rcases List.mem_cons.mp hk3 with h3 | h3
        · exact (List.nodup_cons.mp hnd).1 (h3 ▸ hk2)
        · exact hseen k2 (List.mem_cons_of_mem _ hk2) h3
      · exact fun k2 hk2 => hseg k2 (List.mem_cons_of_mem _ hk2)
    · obtain ⟨z, hz, hzy⟩ := List.mem_map.mp hy
      have : key z = k := hpure z (hx ▸ List.mem_cons_of_mem _ hz)
      exact List.mem_cons.mpr (Or.inl (hzy ▸ this))

theorem filter_flatMap_key {α β : Type} [DecidableEq α] (key : β → α) :
    ∀ (ks : List α) (seg : α → List β), ks.Nodup →
      (∀ k ∈ ks, ∀ x ∈ seg k, key x = k) →
      ∀ k ∈ ks, (ks.flatMap seg).filter (fun x => decide (key x = k)) = seg k := by
  intro ks
  induction ks with
  | nil => intro seg _ _ k hk; cases hk
  | cons k0 t ih =>
    intro seg hnd hpure k hk
    rw [List.flatMap_cons, List.filter_append]
    rcases List.mem_cons.mp hk with hk0 | hkt
    · have h1 : (seg k0).filter (fun x => decide (key x = k)) = seg k0 :=
        List.filter_eq_self.mpr (fun x hx => by
          simp [hk0 ▸ hpure k0 (List.mem_cons_self k0 t) x hx])
      have h2 : (t.flatMap seg).filter (fun x => decide (key x = k)) = [] := by
        refine List.filter_eq_nil_iff.mpr (fun x hx => ?_)
        obtain ⟨k2, hk2, hxk2⟩ := List.mem_flatMap.mp hx
        have hkey : key x = k2 := hpure k2 (List.mem_cons_of_mem _ hk2) x hxk2
        have hne : k2 ≠ k := fun he => (List.nodup_cons.mp hnd).1 (hk0 ▸ he ▸ hk2)
        simp [hkey, hne]
      rw [h1, h2, List.append_nil, hk0]
    · have h1 : (seg k0).filter (fun x => decide (key x = k)) = [] := by
        refine List.filter_eq_nil_iff.mpr (fun x hx => ?_)
        have hkey : key x = k0 := hpure k0 (List.mem_cons_self k0 t) x hx
        have hne : k0 ≠ k := fun he => (List.nodup_cons.mp hnd).1 (he ▸ hkt)
        simp [hkey, hne]
      rw [h1, List.nil_append]
      exact ih seg (List.nodup_cons.mp hnd).2
        (fun k2 hk2 => hpure k2 (List.mem_cons_of_mem _ hk2)) k hkt

theorem flatMap_congr_mem {α β : Type} (l : List α) (f g : α → List β)
    (h : ∀ a ∈ l, f a = g a) : l.flatMap f = l.flatMap g := by
  induction l with
  | nil => rfl
  | cons a t ih =>
    rw [List.flatMap_cons, List.flatMap_cons, h a (List.mem_cons_self a t),
      ih (fun x hx => h x (List.mem_cons_of_mem _ hx))]

theorem businessKey_update (r : NetRow) (q : Int) (p : ℚ) :
    businessKey { r with net_qty := q, avg_price := p } = businessKey r := rfl

theorem grp_key (rows : List NetRow) (k : BKey) :
    ∀ r ∈ grp rows k, businessKey r = k := by
  intro r hr
  rw [grp] at hr
  exact of_decide_eq_true (List.mem_filter.mp hr).2

theorem grp_sub (rows : List NetRow) (k : BKey) :
    ∀ r ∈ grp rows k, r ∈ rows := by
  intro r hr
  rw [grp] at hr
  exact (List.mem_filter.mp hr).1

theorem mem_grp_self (rows : List NetRow) (r : NetRow) (hr : r ∈ rows) :
    r ∈ grp rows (businessKey r) := by
  rw [grp]
  exact List.mem_filter.mpr ⟨hr, by simp⟩

theorem mem_groupKeys_of_grp (rows : List NetRow) (k : BKey) (r : NetRow)
    (hr : r ∈ grp rows k) : k ∈ groupKeys rows := by
  refine (mem_firstSeen k (rows.map businessKey) []).mpr ⟨?_, by simp⟩
  exact grp_key rows k r hr ▸ List.mem_map_of_mem businessKey (grp_sub rows k r hr)

theorem grp_ne_nil (rows : List NetRow) (k : BKey) (hk : k ∈ groupKeys rows) :
    grp rows k ≠ [] := by
  have h1 : k ∈ rows.map businessKey := ((mem_firstSeen k _ []).mp hk).1
  obtain ⟨r, hr, hrk⟩ := List.mem_map.mp h1
  intro hnil
  have hmem := mem_grp_self rows r hr
  rw [hrk, hnil] at hmem
  cases hmem

theorem mergeGroup_branches (g : List NetRow) :
    mergeGroup g = g ∨
      (∃ r0 t, g = r0 :: t ∧ g.length ≠ 1 ∧ groupQty g ≠ 0 ∧
        mergeGroup g = [{ r0 with net_qty := groupQty g, avg_price := round3 (groupVwap g) }]) := by
  by_cases h1 : g.length = 1
  · left
    rw [mergeGroup.eq_def, if_pos h1]
  · by_cases h2 : groupQty g = 0
    · left
      rw [mergeGroup.eq_def, if_neg h1, if_pos h2]
    · cases g with
      | nil => exact absurd rfl h2
      | cons r0 t =>
        refine Or.inr ⟨r0, t, rfl, h1, h2, ?_⟩
        rw [mergeGroup.eq_def, if_neg h1, if_neg h2]

theorem mergeGroup_key (k : BKey) (g : List NetRow) (h : ∀ r ∈ g, businessKey r = k) :
    ∀ r ∈ mergeGroup g, businessKey r = k := by
  rcases mergeGroup_branches g with hg | ⟨r0, t, hg0, _, _, hg⟩
  · rw [hg]; exact h
  · rw [hg]
    intro r hr
    rw [List.mem_singleton.mp hr, businessKey_update]
    exact h r0 (hg0 ▸ List.mem_cons_self r0 t)

theorem mergeGroup_ne_nil (g : List NetRow) (hne : g ≠ []) : mergeGroup g ≠ [] := by
  rcases mergeGroup_branches g with hg | ⟨r0, t, _, _, _, hg⟩
  · rw [hg]; exact hne
  · rw [hg]; exact List.cons_ne_nil _ _

theorem mergeGroup_idem (g : List NetRow) : mergeGroup (mergeGroup g) = mergeGroup g := by
  rcases mergeGroup_branches g with hg | ⟨r0, t, _, _, _, hg⟩
  · rw [hg]
    exact hg
  · rw [hg]
    simp [mergeGroup]

theorem groupKeys_mergeDuplicates (rows : List NetRow) :
    groupKeys (mergeDuplicates rows) = groupKeys rows := by
  have h : groupKeys (mergeDuplicates rows) =
      firstSeen [] (((groupKeys rows).flatMap (fun k => mergeGroup (grp rows k))).map businessKey) := rfl
  rw [h]
  refine firstSeen_runs businessKey (groupKeys rows) [] _ (nodup_firstSeen _ _) (by simp) ?_
  intro k hk
  exact ⟨mergeGroup_ne_nil _ (grp_ne_nil rows k hk), mergeGroup_key k _ (grp_key rows k)⟩

theorem grp_mergeDuplicates (rows : List NetRow) (k : BKey) (hk : k ∈ groupKeys rows) :
    grp (mergeDuplicates rows) k = mergeGroup (grp rows k) :=
  filter_flatMap_key businessKey (groupKeys rows) _ (nodup_firstSeen _ _)
    (fun k2 _ => mergeGroup_key k2 _ (grp_key rows k2)) k hk

/-! Example rows used by the concrete witnesses. -/

/-- A canonical-form net-position row: 10 lots at price 100. -/
def exRowA : NetRow :=
  { broker_id := some "B1", sheet := some "FNO", strategy := some "CORE",
    exchange := some "NSE", instrument := some "FUTIDX", symbol := some "NIFTY",
    expiry := some "26-Dec-2024", strike := some "nan", opt_type := some "NAN",
    net_qty := 10, avg_price := 100, carry_date := some "01-Jan-2024" }

/-- Same business key as `exRowA`: 5 lots at price 103. -/
def exRowB : NetRow := { exRowA with net_qty := 5, avg_price := 103 }

/-- Same business key as `exRowA`: -10 lots at price 105. -/
def exRowC : NetRow := { exRowA with net_qty := -10, avg_price := 105 }

/-- C9: the net-position snapshot merge is idempotent — re-running
`_merge_duplicates` on its own output changes nothing: every group of the
output is already resolved (merged groups are singletons, preserved zero-sum
groups still sum to zero), so the second run's output equals its input. -/
theorem mergeDuplicates_idempotent (rows : List NetRow) :
    mergeDuplicates (mergeDuplicates rows) = mergeDuplicates rows := by
  have h1 : mergeDuplicates (mergeDuplicates rows) =
      (groupKeys (mergeDuplicates rows)).flatMap
        (fun k => mergeGroup (grp (mergeDuplicates rows) k)) := rfl
  rw [h1, groupKeys_mergeDuplicates]
  have h2 : ((groupKeys rows).flatMap (fun k => mergeGroup (grp (mergeDuplicates rows) k))) =
      (groupKeys rows).flatMap (fun k => mergeGroup (grp rows k)) :=
    flatMap_congr_mem _ _ _
      (fun k hk => by rw [grp_mergeDuplicates rows k hk, mergeGroup_idem])
  rw [h2]
  rfl

/-- C1: in the snapshot merge, a multi-row business-key group whose
quantities sum to a nonzero total collapses to exactly one output row: its
`net_qty` is the group sum, its `avg_price` the `net_qty`-weighted average of
the rows' prices rounded to 3 decimals, every other field taken from the
group's first row. -/
theorem netMerge_nonzero_group_vwap (rows : List NetRow) (k : BKey)
    (r0 : NetRow) (t : List NetRow)
    (hg : grp rows k = r0 :: t) (ht : t ≠ [])
    (hq : groupQty (grp rows k) ≠ 0) :
    (mergeDuplicates rows).filter (fun r => decide (businessKey r = k)) =
      [{ r0 with net_qty := groupQty (grp rows k),
                 avg_price := round3 (groupVwap (grp rows k)) }] := by
  have hk : k ∈ groupKeys rows :=
    mem_groupKeys_of_grp rows k r0 (hg ▸ List.mem_cons_self r0 t)
  have hfil : (mergeDuplicates rows).filter (fun r => decide (businessKey r = k)) =
      grp (mergeDuplicates rows) k := rfl
  rw [hfil, grp_mergeDuplicates rows k hk]
  have hlen : (grp rows k).length ≠ 1 := by
    rw [hg]
    cases t with
    | nil => exact absurd rfl ht
    | cons a b => simp [List.length_cons]
  rw [mergeGroup.eq_def, if_neg hlen, if_neg hq, hg]

/-- C2: in the snapshot merge, a multi-row business-key group whose
quantities sum to exactly zero is preserved unmerged: the output rows with
that key are exactly the group's original rows, in order. -/
theorem netMerge_zero_sum_preserved (rows : List NetRow) (k : BKey)
    (hlen : 2 ≤ (grp rows k).length) (hq : groupQty (grp rows k) = 0) :
    (mergeDuplicates rows).filter (fun r => decide (businessKey r = k)) =
      grp rows k := by
  obtain ⟨r0, t, hg⟩ : ∃ r0 t, grp rows k = r0 :: t := by
    cases h : grp rows k with
    | nil => rw [h] at hlen; simp at hlen
    | cons a b => exact ⟨a, b, rfl⟩
  have hk : k ∈ groupKeys rows :=
    mem_groupKeys_of_grp rows k r0 (hg ▸ List.mem_cons_self r0 t)
  have hfil : (mergeDuplicates rows).filter (fun r => decide (businessKey r = k)) =
      grp (mergeDuplicates rows) k := rfl
  rw [hfil, grp_mergeDuplicates rows k hk]
  have hlen1 : (grp rows k).length ≠ 1 := by omega
  rw [mergeGroup.eq_def, if_neg hlen1, if_pos hq]

unseal Rat.add Rat.sub Rat.mul Rat.inv in
/-- Witness for C1 on the spec's example: merging 10 @ 100 with 5 @ 103
yields one row with `net_qty` 15 and `avg_price` 101. -/
theorem netMerge_nonzero_group_vwap_witness :
    (mergeDuplicates [exRowA, exRowB]).filter
        (fun r => decide (businessKey r = businessKey exRowA)) =
      [{ exRowA with net_qty := 15, avg_price := 101 }] := by
  have h := netMerge_nonzero_group_vwap [exRowA, exRowB] (businessKey exRowA)
    exRowA [exRowB] (by decide) (by decide) (by decide)
  exact h.trans (by decide)

unseal Rat.add Rat.sub Rat.mul Rat.inv in
/-- Witness for C2 on the spec's example: +10 @ 100 and -10 @ 105 yield the
two original rows, not zero rows. -/
theorem netMerge_zero_sum_preserved_witness :
    (mergeDuplicates [exRowA, exRowC]).filter
        (fun r => decide (businessKey r = businessKey exRowA)) =
      [exRowA, exRowC] := by
  have h := netMerge_zero_sum_preserved [exRowA, exRowC] (businessKey exRowA)
    (by decide) (by decide)
  exact h.trans (by decide)

/-- An OPTIDX net-position row, valid in every field, whose Strike cell is
blank in the CSV (`none`, i.e. pandas `NaN`). -/
def blankStrikeNetRow : NetRawRow :=
  { broker_id := some "B1", sheet := some "FNO", strategy := some "CORE",
    exchange := some "NSE", instrument := some "OPTIDX", symbol := some "NIFTY",
    expiry := some "26-Dec-2024", strike := none, opt_type := some "CE",
    net_qty := some "10", avg_price := some "100.5", carry_date := some "01-Jan-2024" }

/-- An OPTSTK intraday row, valid in every field, whose Strike cell is blank
in the CSV. -/
def blankStrikeIntraRow : IntraRawRow :=
  { broker_id := some "B1", sheet := some "DAY", strategy := some "CORE",
    exchange := some "NSE", instrument := some "OPTSTK", symbol := some "TCS",
    expiry := some "26-Dec-2024", strike := none, opt_type := some "CE",
    buy_qty := some "5", buy_rate := some "100.5", sell_qty := some "2",
    sell_rate := some "101", net_qty := some "3", trade_date := some "01-Jan-2024" }

unseal Rat.add Rat.sub Rat.mul Rat.inv in
/-- C3: contrary to the spec, an OPT-family row whose Strike cell is left
blank in the CSV is accepted by both pipelines: normalization turns the
blank into the string "nan", which the contract/final-shape checks treat as
present because it is truthy — even though both loaders treat "nan" as a
missing value everywhere else (expiry validation, the numeric strike check,
the intraday null tokens).  A Strike that normalizes to the empty string is
rejected as the spec describes. -/
theorem optRow_blank_strike_accepted :
    (loadNet [blankStrikeNetRow]).isOk = true ∧
    (loadIntra [blankStrikeIntraRow]).isOk = true ∧
    loadNet [{ blankStrikeNetRow with strike := some "" }] =
      Except.error NetErr.optIncomplete ∧
    loadIntra [{ blankStrikeIntraRow with strike := some "" }] =
      Except.error IntraErr.optIncomplete := by
  exact ⟨by decide, by decide, by decide, by decide⟩

/-- C4: in both pipelines, if the validation pipeline fails then the run
against any store produces that error and hands the store no record batch at
all: all-or-nothing, nothing is committed piecemeal. -/
theorem validation_failure_writes_nothing
    (nrows : List NetRawRow) (nstore : List NetRecord → StoreResp) (e : NetErr)
    (irows : List IntraRawRow) (istore : List IntraRecord → StoreResp) (e2 : IntraErr) :
    (loadNet nrows = Except.error e →
      runNetTrace nrows nstore = (Except.error e, [])) ∧
    (loadIntra irows = Except.error e2 →
      runIntraTrace irows istore = (Except.error e2, [])) := by
  constructor
  · intro h
    simp [runNetTrace, h]
  · intro h
    simp [runIntraTrace, h]

/-- Witness for C4: a failing input (no rows, hence no single carry/trade
date) aborts both loads with the date-uniqueness error and no store call. -/
theorem validation_failure_writes_nothing_witness :
    runNetTrace [] (fun _ => ⟨some "unreachable"⟩) =
      (Except.error NetErr.dateUniqueness, []) ∧
    runIntraTrace [] (fun _ => ⟨some "unreachable"⟩) =
      (Except.error IntraErr.dateUniqueness, []) := by
  have h := validation_failure_writes_nothing [] (fun _ => ⟨some "unreachable"⟩)
    NetErr.dateUniqueness [] (fun _ => ⟨some "unreachable"⟩) IntraErr.dateUniqueness
  exact ⟨h.1 (by decide), h.2 (by decide)⟩

/-- C5: intraday quantity validation — null quantity cells parse to 0; a row
whose parsed buy and sell quantities are both zero fails with the
empty-execution error; a row with at least one side whose parsed net
quantity differs from buy minus sell fails with the quantity-mismatch
error. -/
theorem intraday_quantity_validation (r : IntraRawRow) (buy sell net : Int)
    (hb : toIntI r.buy_qty = Except.ok buy)
    (hs : toIntI r.sell_qty = Except.ok sell)
    (hn : toIntI r.net_qty = Except.ok net) :
    (∀ c : Cell, isNullCell c = true → toIntI c = Except.ok 0) ∧
    (buy = 0 ∧ sell = 0 →
      validateQuantitiesRow r = Except.error IntraErr.emptyExecution) ∧
    (¬(buy = 0 ∧ sell = 0) → net ≠ buy - sell →
      validateQuantitiesRow r = Except.error IntraErr.quantityMismatch) := by
  refine ⟨fun c hc => by simp [toIntI, hc], ?_, ?_⟩
  · intro hz
    simp [validateQuantitiesRow, bind, Except.bind, hb, hs, hn, hz]
  · intro hnz hne
    simp [validateQuantitiesRow, bind, Except.bind, hb, hs, hn, hnz, hne]

/-- The spec's C5 example row: Buy_Qty 5, Sell_Qty 2, Net_Qty 4. -/
def mismatchRow : IntraRawRow :=
  { broker_id := some "B1", sheet := some "DAY", strategy := some "CORE",
    exchange := some "NSE", instrument := some "EQ", symbol := some "TCS",
    expiry := none, strike := none, opt_type := none,
    buy_qty := some "5", buy_rate := some "100.5", sell_qty := some "2",
    sell_rate := some "101", net_qty := some "4", trade_date := some "01-Jan-2024" }

unseal Rat.add Rat.sub Rat.mul Rat.inv in
/-- Witness for C5: the row with Buy_Qty 5, Sell_Qty 2, Net_Qty 4 is
rejected with the quantity-mismatch error. -/
theorem intraday_quantity_validation_witness :
    validateQuantitiesRow mismatchRow = Except.error IntraErr.quantityMismatch := by
  have h := intraday_quantity_validation mismatchRow 5 2 4
    (by decide) (by decide) (by decide)
  exact h.2.2 (by decide) (by decide)

/-- C6: in both pipelines, when the file's single date value matches the
DD-MMM-YYYY shape but is not a parseable calendar date, the load is rejected
at the date check (the strptime failure, an uncaught `ValueError` in the
source, aborts everything before any later stage runs). -/
theorem regex_shaped_invalid_date_rejected
    (nrows : List NetRawRow) (irows : List IntraRawRow) (d e : String)
    (hnd : firstSeen [] ((nrows.map normalizeNetRow).map (fun r => r.carry_date)) = [some d])
    (hds : dateShapeOk d = true) (hdc : strptimeDMY (pyUpper d) = false)
    (hid : firstSeen [] ((irows.map normalizeIntraRow).map (fun r => r.trade_date)) = [some e])
    (hes : dateShapeOk e = true) (hec : strptimeDMY (pyUpper e) = false) :
    loadNet nrows = Except.error NetErr.dateValue ∧
    loadIntra irows = Except.error IntraErr.dateValue := by
  constructor
  · have hv : validateCarryDate (nrows.map normalizeNetRow) =
        Except.error NetErr.dateValue := by
      unfold validateCarryDate
      rw [hnd]
      simp [parseDateNet, hds, hdc, bind, Except.bind]
    simp [loadNet, bind, Except.bind, hv]
  · have hv : validateTradeDate (irows.map normalizeIntraRow) =
        Except.error IntraErr.dateValue := by
      unfold validateTradeDate
      rw [hid]
      simp [parseDateIntra, hes, hec, bind, Except.bind]
    simp [loadIntra, bind, Except.bind, hv]

/-- A net-position row whose Carry_Date is the regex-shaped but impossible
date 31-Feb-2024. -/
def febNetRow : NetRawRow :=
  { broker_id := some "B1", sheet := some "FNO", strategy := some "CORE",
    exchange := some "NSE", instrument := some "FUTIDX", symbol := some "NIFTY",
    expiry := some "26-Dec-2024", strike := some "", opt_type := some "",
    net_qty := some "10", avg_price := some "100.5", carry_date := some "31-Feb-2024" }

/-- An intraday row whose Trade_Date is 31-Feb-2024. -/
def febIntraRow : IntraRawRow :=
  { broker_id := some "B1", sheet := some "DAY", strategy := some "CORE",
    exchange := some "NSE", instrument := some "EQ", symbol := some "TCS",
    expiry := none, strike := none, opt_type := none,
    buy_qty := some "5", buy_rate := some "100.5", sell_qty := some "2",
    sell_rate := some "101", net_qty := some "3", trade_date := some "31-Feb-2024" }

/-- Witness for C6: 31-Feb-2024 matches the regex shape yet is rejected by
both loaders with the strptime (calendar) date error. -/
theorem regex_shaped_invalid_date_rejected_witness :
    loadNet [febNetRow] = Except.error NetErr.dateValue ∧
    loadIntra [febIntraRow] = Except.error IntraErr.dateValue := by
  have h := regex_shaped_invalid_date_rejected [febNetRow] [febIntraRow]
    "31-Feb-2024" "31-Feb-2024" (by decide) (by decide) (by decide)
    (by decide) (by decide) (by decide)
  exact h

/-- A fully valid equity net-position row. -/
def validNetRow : NetRawRow :=
  { broker_id := some "B1", sheet := some "ALPHA", strategy := some "CORE",
    exchange := some "NSE", instrument := some "EQ", symbol := some "TCS",
    expiry := none, strike := none, opt_type := none,
    net_qty := some "7", avg_price := some "10.5", carry_date := some "01-Jan-2024" }

/-- The record `loadNet` emits for `validNetRow` (sheet forced to PORTFOLIO,
contract fields cleared, numerics parsed). -/
def validNetRec : NetRecord :=
  { broker_id := some "B1", sheet := some "PORTFOLIO", strategy := some "CORE",
    exchange := some "NSE", instrument_type := some "EQ", symbol := some "TCS",
    expiry := none, strike := none, opt_type := none,
    net_qty := 7, avg_price := 21/2, carry_date := some "01-Jan-2024" }

/-- A fully valid equity intraday row. -/
def validIntraRow : IntraRawRow :=
  { broker_id := some "B1", sheet := some "DAY", strategy := some "CORE",
    exchange := some "NSE", instrument := some "EQ", symbol := some "TCS",
    expiry := none, strike := none, opt_type := none,
    buy_qty := some "5", buy_rate := some "100.5", sell_qty := some "2",
    sell_rate := some "101", net_qty := some "3", trade_date := some "01-Jan-2024" }

/-- The record `loadIntra` emits for `validIntraRow` (contract fields
cleared by the equity rewrite; quantities stay the raw strings). -/
def validIntraRec : IntraRecord :=
  { broker_id := some "B1", sheet := some "DAY", strategy := some "CORE",
    exchange := some "NSE", instrument_type := some "EQ", symbol := some "TCS",
    expiry := none, strike := none, opt_type := none,
    buy_qty := some "5", buy_rate := some "100.5", sell_qty := some "2",
    sell_rate := some "101", net_qty := some "3", trade_date := some "01-Jan-2024" }

unseal Rat.add Rat.sub Rat.mul Rat.inv in
/-- Counterexample to C7 as stated: the intraday pipeline hands the store a
batch, the store's response reports an error signal, and the load still
succeeds — `_insert_to_db` never inspects the response, so a reported store
error is not fatal there. -/
theorem store_error_signal_not_fatal_intraday :
    runIntraTrace [validIntraRow] (fun _ => ⟨some "connection reset"⟩) =
      (Except.ok (), [[validIntraRec]]) := by decide

/-- C7 amended: only the net-position pipeline treats a reported store error
as fatal — its upsert raises on `resp.error` — while the intraday pipeline
ignores the insert response entirely, succeeding for any store response. -/
theorem store_error_signal_handling
    (nrows : List NetRawRow) (nstore : List NetRecord → StoreResp)
    (recs : List NetRecord) (m : String)
    (irows : List IntraRawRow) (istore : List IntraRecord → StoreResp)
    (recs2 : List IntraRecord)
    (hok : loadNet nrows = Except.ok recs) (herr : (nstore recs).error = some m)
    (hok2 : loadIntra irows = Except.ok recs2) :
    runNetTrace nrows nstore = (Except.error NetErr.storeWrite, [recs]) ∧
    runIntraTrace irows istore = (Except.ok (), [recs2]) := by
  constructor
  · simp [runNetTrace, hok, herr]
  · simp [runIntraTrace, hok2]

unseal Rat.add Rat.sub Rat.mul Rat.inv in
/-- Witness for the amended C7: on valid one-row inputs, a store that
reports an error fails the net-position load after its single upsert call,
while the intraday load succeeds regardless. -/
theorem store_error_signal_handling_witness :
    runNetTrace [validNetRow] (fun _ => ⟨some "db down"⟩) =
      (Except.error NetErr.storeWrite, [[validNetRec]]) ∧
    runIntraTrace [validIntraRow] (fun _ => ⟨some "db down"⟩) =
      (Except.ok (), [[validIntraRec]]) := by
  have h := store_error_signal_handling [validNetRow] (fun _ => ⟨some "db down"⟩)
    [validNetRec] "db down" [validIntraRow] (fun _ => ⟨some "db down"⟩)
    [validIntraRec] (by decide) (by decide) (by decide)
  exact h

theorem mergeGroup_length (g : List NetRow) (hne : g ≠ []) :
    (mergeGroup g).length =
      if 2 ≤ g.length ∧ groupQty g = 0 then g.length else 1 := by
  by_cases h1 : g.length = 1
  · rw [mergeGroup.eq_def, if_pos h1, h1]
    simp
  · by_cases h2 : groupQty g = 0
    · rw [mergeGroup.eq_def, if_neg h1, if_pos h2]
      have hlen2 : 2 ≤ g.length := by
        have h0 : g.length ≠ 0 := fun h => hne (List.length_eq_zero.mp h)
        omega
      rw [if_pos ⟨hlen2, h2⟩]
    · cases g with
      | nil => exact absurd rfl h2
      | cons r0 t =>
        rw [mergeGroup.eq_def, if_neg h1, if_neg h2,
          if_neg (fun hc => h2 hc.2)]
        rfl

/-- The spec's record count for the net pipeline, modelled from its words:
the number of distinct business keys, except that a multi-row group whose
quantities sum to zero contributes all of its original rows. -/
def netKeyCount (rows : List NetRow) : Nat :=
  ((groupKeys rows).map (fun k =>
    if 2 ≤ (grp rows k).length ∧ groupQty (grp rows k) = 0
    then (grp rows k).length else 1)).sum

/-- C8: the number of records emitted to the store equals the input row
count for the intraday pipeline, and for the net-position merge equals the
number of distinct business keys counting each zero-net-preserved group's
original rows. -/
theorem emitted_record_counts (nrows : List NetRow)
    (irows : List IntraRawRow) (recs : List IntraRecord)
    (hok : loadIntra irows = Except.ok recs) :
    (toDbRecordsNet (mergeDuplicates nrows)).length = netKeyCount nrows ∧
    recs.length = irows.length := by
  constructor
  · rw [toDbRecordsNet, List.length_map]
    have h1 : (mergeDuplicates nrows).length =
        ((groupKeys nrows).map (fun k => (mergeGroup (grp nrows k)).length)).sum :=
      List.length_flatMap _ _
    rw [h1]
    unfold netKeyCount
    congr 1
    refine List.map_congr_left (fun k hk => ?_)
    exact mergeGroup_length _ (grp_ne_nil nrows k hk)
  · simp only [loadIntra, bind, Except.bind] at hok
    cases h1 : validateTradeDate (irows.map normalizeIntraRow) with
    | error e => simp [h1] at hok
    | ok d =>
      simp only [h1] at hok
      cases h2 : validateExchangeIntra (irows.map normalizeIntraRow) with
      | error e => simp [h2] at hok
      | ok u =>
        simp only [h2] at hok
        cases h3 : validateContracts
            ((canonicalizeBseIntra (irows.map normalizeIntraRow)).map eqRewriteIntra) with
        | error e => simp [h3] at hok
        | ok u2 =>
          simp only [h3] at hok
          cases h4 : validateQuantities
              ((canonicalizeBseIntra (irows.map normalizeIntraRow)).map eqRewriteIntra) with
          | error e => simp [h4] at hok
          | ok u3 =>
            simp only [h4] at hok
            injection hok with h5
            rw [← h5]
            simp [toDbRecordsIntra, canonicalizeBseIntra]

unseal Rat.add Rat.sub Rat.mul Rat.inv in
/-- Witness for C8: two same-key net rows merge to one record (one distinct
business key); a one-row intraday file emits one record. -/
theorem emitted_record_counts_witness :
    (toDbRecordsNet (mergeDuplicates [exRowA, exRowB])).length =
      netKeyCount [exRowA, exRowB] ∧
    ([validIntraRec] : List IntraRecord).length =
      ([validIntraRow] : List IntraRawRow).length := by
  have h := emitted_record_counts [exRowA, exRowB] [validIntraRow] [validIntraRec]
    (by decide)
  exact h

/-- C10: a CSV with a header but no data rows is rejected by both pipelines
at the single-valued-date check — zero distinct Carry_Date/Trade_Date values
fail the uniqueness test — before anything is handed to the store, for any
store. -/
theorem empty_file_never_loadable
    (nstore : List NetRecord → StoreResp) (istore : List IntraRecord → StoreResp) :
    runNetTrace [] nstore = (Except.error NetErr.dateUniqueness, []) ∧
    runIntraTrace [] istore = (Except.error IntraErr.dateUniqueness, []) := by
  have h1 : loadNet [] = Except.error NetErr.dateUniqueness := by decide
  have h2 : loadIntra [] = Except.error IntraErr.dateUniqueness := by decide
  exact ⟨by simp [runNetTrace, h1], by simp [runIntraTrace, h2]⟩
